import Mathlib

/-!
Shallow embedding of the `ai-tools-ox` crate: the `Jsonify` type-descriptor
protocol (`src/lib.rs`), the `ToolBuilder` fluent builder, the `Tools`
registry and its dispatch loop (`src/tools.rs`).  Machine integers play no
role; JSON values are modelled by an inductive type, Rust `HashMap`s by
association lists with overwriting insertion, panics (`unwrap`) by `Option`
(`none` = panic), and the external `serde_json::from_str` decoder by an
explicit `String → Option Json` parameter.
-/

namespace AiToolsOx

/-- Model of `serde_json::Value`. Numbers are integers (no claim touches
floating point payloads). -/
inductive Json where
  | null : Json
  | bool (b : Bool) : Json
  | num (n : Int) : Json
  | str (s : String) : Json
  | arr (elems : List Json) : Json
  | obj (fields : List (String × Json)) : Json

/-- Model of `serde_json::Value::as_str`: `Some` exactly on string values. -/
def Json.as_str : Json → Option String
  | .str s => some s
  | _ => none

/-- Lower-case hexadecimal digit, used by the string escaper. -/
def hexDigitChar (n : Nat) : Char :=
  if n < 10 then Char.ofNat (48 + n) else Char.ofNat (87 + n)

/-- Escaping of one character inside a JSON string, following serde_json:
quote, backslash, the short control escapes, and `\u00XX` for the remaining
control characters. -/
def escapeChar (c : Char) : String :=
  if c = '"' then "\\\""
  else if c = '\\' then "\\\\"
  else if c = Char.ofNat 8 then "\\b"
  else if c = '\t' then "\\t"
  else if c = '\n' then "\\n"
  else if c = Char.ofNat 12 then "\\f"
  else if c = '\r' then "\\r"
  else if c.toNat < 32 then
    "\\u00" ++ String.singleton (hexDigitChar (c.toNat / 16))
      ++ String.singleton (hexDigitChar (c.toNat % 16))
  else String.singleton c

/-- Rendering of a JSON string literal, with quotes and escapes. -/
def renderString (s : String) : String :=
  "\"" ++ String.join (s.toList.map escapeChar) ++ "\""

mutual
/-- Model of `serde_json::Value`'s `Display`/`to_string` (compact form). -/
def Json.to_string : Json → String
  | .null => "null"
  | .bool true => "true"
  | .bool false => "false"
  | .num n => toString n
  | .str s => renderString s
  | .arr xs => "[" ++ Json.renderElems xs ++ "]"
  | .obj fs => "\x7b" ++ Json.renderFields fs ++ "\x7d"

/-- Comma-separated rendering of array elements. -/
def Json.renderElems : List Json → String
  | [] => ""
  | [x] => x.to_string
  | x :: rest => x.to_string ++ "," ++ Json.renderElems rest

/-- Comma-separated rendering of object fields. -/
def Json.renderFields : List (String × Json) → String
  | [] => ""
  | [(k, v)] => renderString k ++ ":" ++ v.to_string
  | (k, v) :: rest => renderString k ++ ":" ++ v.to_string ++ "," ++ Json.renderFields rest
end

mutual
/-- The Rust types for which `Jsonify` is implemented in `src/lib.rs`, plus
composite record types produced by the `Object` derive macro
(`ai-tools-ox-derive/src/object.rs`). -/
inductive RustTy where
  | refStr : RustTy
  | string : RustTy
  | char : RustTy
  | i8 : RustTy
  | i16 : RustTy
  | i32 : RustTy
  | i64 : RustTy
  | i128 : RustTy
  | u8 : RustTy
  | u16 : RustTy
  | u32 : RustTy
  | u64 : RustTy
  | u128 : RustTy
  | f32 : RustTy
  | f64 : RustTy
  | bool : RustTy
  | vec (elem : RustTy) : RustTy
  | hashMap (key value : RustTy) : RustTy
  | object (fields : FieldList) : RustTy

/-- A record type's field list: name, declared type, optional description --
the data the `Object` derive macro extracts from a struct. -/
inductive FieldList where
  | nil : FieldList
  | cons (name : String) (ty : RustTy) (descr : Option String) (rest : FieldList) : FieldList
end

mutual
/-- Model of `Jsonify::jsonify`.  `none` models a panic: the `Vec` and
`HashMap` impls call `.as_str().unwrap()` on the inner descriptor
(`src/lib.rs` lines 31-45), which panics when that descriptor is not a JSON
string; a panic in an inner `jsonify` call propagates. -/
def RustTy.jsonify : RustTy → Option Json
  | .refStr | .string | .char => some (.str "string")
  | .i8 | .i16 | .i32 | .i64 | .i128 => some (.str "number")
  | .u8 | .u16 | .u32 | .u64 | .u128 => some (.str "number")
  | .f32 | .f64 => some (.str "number")
  | .bool => some (.str "boolean")
  | .vec t =>
    match t.jsonify with
    | some inner =>
      match inner.as_str with
      | some s => some (.str (s ++ "[]"))
      | none => none
    | none => none
  | .hashMap k v =>
    match k.jsonify, v.jsonify with
    | some kj, some vj =>
      match kj.as_str, vj.as_str with
      | some ks, some vs => some (.str ("Map<" ++ ks ++ ", " ++ vs ++ ">"))
      | _, _ => none
    | _, _ => none
  | .object fs => (FieldList.jsonifyFields fs).map Json.obj

/-- Model of the field-by-field schema built by the `Object` derive macro:
each field maps to `{"type": <ty>::jsonify(), "description"?: ...}`. -/
def FieldList.jsonifyFields : FieldList → Option (List (String × Json))
  | .nil => some []
  | .cons n t d rest =>
    match t.jsonify, FieldList.jsonifyFields rest with
    | some j, some tail =>
      some ((n, Json.obj (("type", j) ::
        (match d with
         | some ds => [("description", Json.str ds)]
         | none => []))) :: tail)
    | _, _ => none
end

/-- The plain string tag of a type's descriptor, when it has one: the value
of `T::jsonify().as_str()`, with panic propagation. -/
def RustTy.stringTag (t : RustTy) : Option String :=
  match t.jsonify with
  | some j => j.as_str
  | none => none

/-- Association-list lookup, the model of `HashMap::get`. -/
def lookupKey {α : Type} (k : String) : List (String × α) → Option α
  | [] => none
  | (k', v) :: rest => if k' = k then some v else lookupKey k rest

/-- Association-list insertion with overwrite, the model of
`HashMap::insert`: the new binding replaces any previous binding of the
same key. -/
def insertKey {α : Type} (k : String) (v : α) (l : List (String × α)) : List (String × α) :=
  (k, v) :: l.filter (fun p => decide ¬(p.1 = k))

/-- Number of bindings of a key in an association list. -/
def countKey {α : Type} (k : String) (l : List (String × α)) : Nat :=
  l.countP (fun p => decide (p.1 = k))

/-- Model of `ToolParameter` (`src/tools.rs` lines 16-23): one entry of
the `properties` object. -/
structure ToolParameter where
  argument_type : String
  description : String
  argument_enum : Option (List String)
deriving DecidableEq, Repr

/-- Model of `ToolParameters` (`src/tools.rs` lines 25-33); `properties`
is a `HashMap` in the source, modelled by an association list. -/
structure ToolParameters where
  parameter_type : String
  properties : List (String × ToolParameter)
  required : List String
deriving DecidableEq, Repr

/-- The `Derivative(Default)` instance of `ToolParameters`: kind tag
`"object"`, empty properties, empty required list. -/
def ToolParameters.mkDefault : ToolParameters :=
  { parameter_type := "object", properties := [], required := [] }

/-- Model of `ToolFunction` (`src/tools.rs` lines 35-40). -/
structure ToolFunction where
  name : String
  description : String
  parameters : ToolParameters
deriving DecidableEq, Repr

/-- Model of `ToolType` (`src/tools.rs` lines 10-14). -/
inductive ToolType where
  | function : ToolType
deriving DecidableEq, Repr

/-- Model of `Tool` (`src/tools.rs` lines 42-47). -/
structure Tool where
  tool_type : ToolType
  function : ToolFunction
deriving DecidableEq, Repr

/-- Model of `ToolBuilderError` (`src/tools.rs` lines 63-69). -/
inductive ToolBuilderError where
  | NameNotSet : ToolBuilderError
  | DescriptionNotSet : ToolBuilderError
deriving DecidableEq, Repr

/-- Model of `ToolBuilder` (`src/tools.rs` lines 71-76). -/
structure ToolBuilder where
  name : Option String
  description : Option String
  parameters : Option ToolParameters
deriving DecidableEq, Repr

/-- `ToolBuilder::new` / `Default`: all fields unset. -/
def ToolBuilder.new : ToolBuilder :=
  { name := none, description := none, parameters := none }

/-- `ToolBuilder::name` (renamed: the Rust method shares its name with the
field it sets). -/
def ToolBuilder.set_name (b : ToolBuilder) (name : String) : ToolBuilder :=
  { b with name := some name }

/-- `ToolBuilder::description` (renamed like `set_name`). -/
def ToolBuilder.set_description (b : ToolBuilder) (description : String) : ToolBuilder :=
  { b with description := some description }

/-- `ToolBuilder::add_parameter::<T>` (`src/tools.rs` lines 90-106): the
tag is `T::jsonify().as_str().unwrap()` -- `none` models the panic -- the
parameter is inserted into `properties` and the name pushed onto
`required`. -/
def ToolBuilder.add_parameter (b : ToolBuilder) (ty : RustTy)
    (name description : String) : Option ToolBuilder :=
  match ty.jsonify with
  | some j =>
    match j.as_str with
    | some tag =>
      let argument : ToolParameter :=
        { argument_type := tag, description := description, argument_enum := none }
      let args := b.parameters.getD ToolParameters.mkDefault
      let args := { args with
        properties := insertKey name argument args.properties,
        required := args.required ++ [name] }
      some { b with parameters := some args }
    | none => none
  | none => none

/-- `ToolBuilder::add_optional_parameter::<T>` (`src/tools.rs` lines
107-122): like `add_parameter` but `required` is left untouched. -/
def ToolBuilder.add_optional_parameter (b : ToolBuilder) (ty : RustTy)
    (name description : String) : Option ToolBuilder :=
  match ty.jsonify with
  | some j =>
    match j.as_str with
    | some tag =>
      let argument : ToolParameter :=
        { argument_type := tag, description := description, argument_enum := none }
      let args := b.parameters.getD ToolParameters.mkDefault
      let args := { args with properties := insertKey name argument args.properties }
      some { b with parameters := some args }
    | none => none
  | none => none

/-- `ToolBuilder::add_enum_parameter` (`src/tools.rs` lines 123-144): tag
fixed to `"string"`, enum variants recorded, name pushed onto `required`.
No unwrap here, so the operation is total. -/
def ToolBuilder.add_enum_parameter (b : ToolBuilder)
    (name description : String) (enum_values : List String) : ToolBuilder :=
  let argument : ToolParameter :=
    { argument_type := "string", description := description,
      argument_enum := some enum_values }
  let args := b.parameters.getD ToolParameters.mkDefault
  let args := { args with
    properties := insertKey name argument args.properties,
    required := args.required ++ [name] }
  { b with parameters := some args }

/-- `ToolBuilder::add_optional_enum_parameter` (`src/tools.rs` lines
145-165): like `add_enum_parameter` but `required` is left untouched. -/
def ToolBuilder.add_optional_enum_parameter (b : ToolBuilder)
    (name description : String) (enum_values : List String) : ToolBuilder :=
  let argument : ToolParameter :=
    { argument_type := "string", description := description,
      argument_enum := some enum_values }
  let args := b.parameters.getD ToolParameters.mkDefault
  let args := { args with properties := insertKey name argument args.properties }
  { b with parameters := some args }

/-- `ToolBuilder::build` (`src/tools.rs` lines 166-182). -/
def ToolBuilder.build (b : ToolBuilder) : Except ToolBuilderError Tool :=
  match b.name with
  | none => .error .NameNotSet
  | some name =>
    match b.description with
    | none => .error .DescriptionNotSet
    | some description =>
      .ok { tool_type := .function,
            function := { name := name, description := description,
                          parameters := b.parameters.getD ToolParameters.mkDefault } }

/-- One call in a `ToolBuilder` fluent chain. -/
inductive BuilderOp where
  | set_name (s : String) : BuilderOp
  | set_description (s : String) : BuilderOp
  | add_parameter (ty : RustTy) (name description : String) : BuilderOp
  | add_optional_parameter (ty : RustTy) (name description : String) : BuilderOp
  | add_enum_parameter (name description : String) (values : List String) : BuilderOp
  | add_optional_enum_parameter (name description : String) (values : List String) : BuilderOp

/-- Applying one chain call to a builder; `none` models a panic inside the
typed adders. -/
def applyOp (b : ToolBuilder) : BuilderOp → Option ToolBuilder
  | .set_name s => some (b.set_name s)
  | .set_description s => some (b.set_description s)
  | .add_parameter ty n d => b.add_parameter ty n d
  | .add_optional_parameter ty n d => b.add_optional_parameter ty n d
  | .add_enum_parameter n d vs => some (b.add_enum_parameter n d vs)
  | .add_optional_enum_parameter n d vs => some (b.add_optional_enum_parameter n d vs)

/-- Applying a whole chain, left to right. -/
def applyOps (b : ToolBuilder) : List BuilderOp → Option ToolBuilder
  | [] => some b
  | op :: rest =>
    match applyOp b op with
    | some b' => applyOps b' rest
    | none => none

/-- Serde serialization of a `ToolParameter`: field renames from the
derive attributes (`type`, `enum`), `enum` skipped when `None`. -/
def ToolParameter.toJson (p : ToolParameter) : Json :=
  .obj (("type", .str p.argument_type) :: ("description", .str p.description) ::
    (match p.argument_enum with
     | some vs => [("enum", .arr (vs.map .str))]
     | none => []))

/-- Serde serialization of `ToolParameters`. -/
def ToolParameters.toJson (ps : ToolParameters) : Json :=
  .obj [("type", .str ps.parameter_type),
        ("properties", .obj (ps.properties.map (fun p => (p.1, p.2.toJson)))),
        ("required", .arr (ps.required.map .str))]

/-- Serde serialization of `ToolType` (`rename_all = "lowercase"`). -/
def ToolType.toJson : ToolType → Json
  | .function => .str "function"

/-- Serde serialization of `ToolFunction`. -/
def ToolFunction.toJson (f : ToolFunction) : Json :=
  .obj [("name", .str f.name), ("description", .str f.description),
        ("parameters", f.parameters.toJson)]

/-- Serde serialization of `Tool` (the `serde_json::to_value` computed at
registration time in `Tools::add_tool`). -/
def Tool.toJson (t : Tool) : Json :=
  .obj [("type", t.tool_type.toJson), ("function", t.function.toJson)]

/-- Model of `ToolCallFunction` (`src/tools.rs` lines 49-53): `arguments`
is the raw JSON text supplied by the agent. -/
structure ToolCallFunction where
  name : String
  arguments : String
deriving DecidableEq, Repr

/-- Model of `ToolCall` (`src/tools.rs` lines 55-61). -/
structure ToolCall where
  id : String
  tool_type : ToolType
  function : ToolCallFunction
deriving DecidableEq, Repr

/-- Model of `ToolCallResult` (`src/tools.rs` lines 242-246). -/
structure ToolCallResult where
  tool_call_id : String
  content : String
deriving DecidableEq, Repr

/-- Model of `ToolsResults` (`src/tools.rs` lines 248-257), a wrapper
around the ordered result list. -/
structure ToolsResults where
  results : List ToolCallResult
deriving DecidableEq, Repr

/-- `ToolsResults::add_result`: push at the end. -/
def ToolsResults.add_result (rs : ToolsResults) (r : ToolCallResult) : ToolsResults :=
  { results := rs.results ++ [r] }

/-- Model of a `dyn ToTool` trait object: its `to_tool` definition and its
async `call_tool` handler, the latter as a pure function (the dispatcher
awaits each call to completion before the next). -/
structure ToTool where
  to_tool : Tool
  call_tool : String → Json → ToolCallResult

/-- Model of `Tools` (`src/tools.rs` line 192): name to
(precomputed schema, handler), a `HashMap` modelled by an association
list. -/
structure Tools where
  entries : List (String × (Json × ToTool))

/-- The empty registry (`Tools::default`). -/
def Tools.empty : Tools := { entries := [] }

/-- `Tools::add_tool` (`src/tools.rs` lines 195-204): computes the tool's
schema once, keys the entry by `tool.function.name`, inserts with
overwrite. -/
def Tools.add_tool (ts : Tools) (toolable : ToTool) : Tools :=
  let tool := toolable.to_tool
  let json := tool.toJson
  let name := tool.function.name
  { entries := insertKey name (json, toolable) ts.entries }

/-- `Tools::call_tool` (`src/tools.rs` lines 205-217).  `dec` is the
external `serde_json::from_str` decoder; the registered path unwraps the
decode result, so a decode failure is a panic (`none`).  The unregistered
path builds `json!("Tool not found").to_string()` as content. -/
def Tools.call_tool (dec : String → Option Json) (ts : Tools)
    (tool_call : ToolCall) : Option ToolCallResult :=
  match lookupKey tool_call.function.name ts.entries with
  | some (_, tool) =>
    match dec tool_call.function.arguments with
    | some json => some (tool.call_tool tool_call.id json)
    | none => none
  | none =>
    some { tool_call_id := tool_call.id,
           content := (Json.str "Tool not found").to_string }

/-- The sequential dispatch loop of `Tools::call_tools` (`src/tools.rs`
lines 219-226), accumulating the per-call results in input order; a panic
anywhere (`none`) aborts the whole batch. -/
def Tools.callToolsList (dec : String → Option Json) (ts : Tools) :
    List ToolCall → Option (List ToolCallResult)
  | [] => some []
  | tc :: rest =>
    match Tools.call_tool dec ts tc with
    | some r => (Tools.callToolsList dec ts rest).map (fun l => r :: l)
    | none => none

/-- `Tools::call_tools`: the loop's results wrapped in `ToolsResults`. -/
def Tools.call_tools (dec : String → Option Json) (ts : Tools)
    (tool_calls : List ToolCall) : Option ToolsResults :=
  (Tools.callToolsList dec ts tool_calls).map ToolsResults.mk

/-- The `Serialize` impl of `Tools` (`src/tools.rs` lines 229-240): the
collection of cached schema values, handlers dropped. -/
def Tools.serialize (ts : Tools) : List Json :=
  ts.entries.map (fun p => p.2.1)

/-- The `name` recorded inside a serialized tool schema, as a string:
`json.function.name`. -/
def schemaName (j : Json) : Option String :=
  match j with
  | .obj fs =>
    match lookupKey "function" fs with
    | some (.obj gs) =>
      match lookupKey "name" gs with
      | some v => v.as_str
      | none => none
    | _ => none
  | _ => none

/-- Whether a chain call is the name setter. -/
def BuilderOp.isName : BuilderOp → Bool
  | .set_name _ => true
  | _ => false

/-- Whether a chain call is the description setter. -/
def BuilderOp.isDescription : BuilderOp → Bool
  | .set_description _ => true
  | _ => false

/-- Whether a chain call is one of the four parameter-adding operations. -/
def BuilderOp.isAdd : BuilderOp → Bool
  | .add_parameter _ _ _ => true
  | .add_optional_parameter _ _ _ => true
  | .add_enum_parameter _ _ _ => true
  | .add_optional_enum_parameter _ _ _ => true
  | _ => false

/-- The parameter name a required-adding operation declares, `none` for the
other operations. -/
def BuilderOp.requiredName : BuilderOp → Option String
  | .add_parameter _ n _ => some n
  | .add_enum_parameter n _ _ => some n
  | _ => none

/-- The `ToolParameter` a parameter-adding operation inserts into
`properties` (when it does not panic). -/
def BuilderOp.insertedParam : BuilderOp → Option ToolParameter
  | .add_parameter ty _ d =>
    (ty.stringTag).map (fun tag =>
      { argument_type := tag, description := d, argument_enum := none })
  | .add_optional_parameter ty _ d =>
    (ty.stringTag).map (fun tag =>
      { argument_type := tag, description := d, argument_enum := none })
  | .add_enum_parameter _ d vs =>
    some { argument_type := "string", description := d, argument_enum := some vs }
  | .add_optional_enum_parameter _ d vs =>
    some { argument_type := "string", description := d, argument_enum := some vs }
  | _ => none

/-- Everything listed in `required` is a key of `properties`. -/
def ToolParameters.requiredCovered (ps : ToolParameters) : Bool :=
  ps.required.all (fun n => (lookupKey n ps.properties).isSome)

/-- The builder's accumulated parameters (what `build` would embed). -/
def ToolBuilder.params (b : ToolBuilder) : ToolParameters :=
  b.parameters.getD ToolParameters.mkDefault

/-- The required-coverage invariant on a builder's accumulated
parameters. -/
def ToolBuilder.inv (b : ToolBuilder) : Prop :=
  b.params.requiredCovered = true

/-- A decoder that fails on every argument string. -/
def decFail : String → Option Json := fun _ => none

/-- A decoder that decodes every argument string to `null`. -/
def decNull : String → Option Json := fun _ => some Json.null

/-- A call to a name no registry in the examples registers. -/
def cexCall : ToolCall :=
  { id := "call-1", tool_type := .function,
    function := { name := "ghost", arguments := "\x7b\x7d" } }

/-- A second unregistered call, used by the batch example. -/
def cexCall2 : ToolCall :=
  { id := "id-2", tool_type := .function,
    function := { name := "nobody", arguments := "\x7b\x7d" } }

/-- A concrete registered tool. -/
def echoTool : ToTool :=
  { to_tool := { tool_type := .function,
                 function := { name := "echo", description := "echoes the input",
                               parameters := ToolParameters.mkDefault } },
    call_tool := fun id _ => { tool_call_id := id, content := "ok" } }

/-- A second concrete tool under a different name. -/
def twiceTool : ToTool :=
  { to_tool := { tool_type := .function,
                 function := { name := "twice", description := "doubles the input",
                               parameters := ToolParameters.mkDefault } },
    call_tool := fun id _ => { tool_call_id := id, content := "ok2" } }

/-- A registry holding only `echoTool`. -/
def regEcho : Tools := Tools.empty.add_tool echoTool

/-- A registry holding `echoTool` and `twiceTool`. -/
def regTwo : Tools := (Tools.empty.add_tool echoTool).add_tool twiceTool

/-- A call to `echo` whose arguments will fail to decode. -/
def callEchoBad : ToolCall :=
  { id := "id-8", tool_type := .function,
    function := { name := "echo", arguments := "not json" } }

/-- A well-formed call to `echo`. -/
def callE : ToolCall :=
  { id := "a", tool_type := .function,
    function := { name := "echo", arguments := "null" } }

/-- A well-formed call to `twice`. -/
def callT : ToolCall :=
  { id := "b", tool_type := .function,
    function := { name := "twice", arguments := "null" } }

/-- First tool registered under the name `dup`. -/
def dupToolA : ToTool :=
  { to_tool := { tool_type := .function,
                 function := { name := "dup", description := "first version",
                               parameters := ToolParameters.mkDefault } },
    call_tool := fun id _ => { tool_call_id := id, content := "A" } }

/-- Second tool registered under the name `dup`. -/
def dupToolB : ToTool :=
  { to_tool := { tool_type := .function,
                 function := { name := "dup", description := "second version",
                               parameters := ToolParameters.mkDefault } },
    call_tool := fun id _ => { tool_call_id := id, content := "B" } }

/-! Helper lemmas. -/

theorem lookupKey_insertKey_self {α : Type} (k : String) (v : α) (l : List (String × α)) :
    lookupKey k (insertKey k v l) = some v := by
  simp [insertKey, lookupKey]

theorem lookupKey_filter_ne {α : Type} (k n : String) (hkn : k ≠ n)
    (l : List (String × α)) :
    lookupKey k (l.filter (fun p => !decide (p.1 = n))) = lookupKey k l := by
  induction l with
  | nil => rfl
  | cons p rest ih =>
    obtain ⟨a, w⟩ := p
    by_cases hp : a = n
    · subst hp
      have hak : ¬(a = k) := fun hc => hkn hc.symm
      simp [List.filter_cons, lookupKey, hak, ih]
    · simp only [List.filter_cons]
      simp [lookupKey, hp, ih]

theorem lookupKey_insertKey {α : Type} (k n : String) (v : α) (l : List (String × α)) :
    lookupKey k (insertKey n v l) = if n = k then some v else lookupKey k l := by
  by_cases h : n = k
  · subst h
    simp [lookupKey_insertKey_self]
  · simp [insertKey, lookupKey, h, lookupKey_filter_ne k n (fun hc => h hc.symm) l]

theorem countKey_filter_self {α : Type} (n : String) (l : List (String × α)) :
    countKey n (l.filter (fun p => !decide (p.1 = n))) = 0 := by
  induction l with
  | nil => rfl
  | cons p rest ih =>
    by_cases hp : p.1 = n
    · simp only [List.filter_cons, hp]
      simpa using ih
    · simp only [List.filter_cons, hp]
      simp only [decide_eq_true_eq] at *
      simp [countKey, List.countP_cons, hp]

theorem countKey_insertKey_self {α : Type} (n : String) (v : α) (l : List (String × α)) :
    countKey n (insertKey n v l) = 1 := by
  have h := countKey_filter_self n l
  simp only [insertKey, countKey, List.countP_cons] at *
  simp [h]

theorem add_parameter_eq_some (b : ToolBuilder) (ty : RustTy) (n d : String)
    (b' : ToolBuilder) :
    b.add_parameter ty n d = some b' ↔
      ∃ tag, ty.stringTag = some tag ∧
        b' = { b with parameters := some ({ b.params with
          properties := insertKey n ⟨tag, d, none⟩ b.params.properties,
          required := b.params.required ++ [n] }) } := by
  unfold ToolBuilder.add_parameter RustTy.stringTag ToolBuilder.params
  cases hj : ty.jsonify with
  | none => simp
  | some j => cases j <;> simp [Json.as_str, eq_comm]

theorem add_optional_parameter_eq_some (b : ToolBuilder) (ty : RustTy) (n d : String)
    (b' : ToolBuilder) :
    b.add_optional_parameter ty n d = some b' ↔
      ∃ tag, ty.stringTag = some tag ∧
        b' = { b with parameters := some ({ b.params with
          properties := insertKey n ⟨tag, d, none⟩ b.params.properties }) } := by
  unfold ToolBuilder.add_optional_parameter RustTy.stringTag ToolBuilder.params
  cases hj : ty.jsonify with
  | none => simp
  | some j => cases j <;> simp [Json.as_str, eq_comm]

theorem add_enum_parameter_eq (b : ToolBuilder) (n d : String) (vs : List String) :
    b.add_enum_parameter n d vs = { b with parameters := some ({ b.params with
      properties := insertKey n ⟨"string", d, some vs⟩ b.params.properties,
      required := b.params.required ++ [n] }) } := rfl

theorem add_optional_enum_parameter_eq (b : ToolBuilder) (n d : String)
    (vs : List String) :
    b.add_optional_enum_parameter n d vs = { b with parameters := some ({ b.params with
      properties := insertKey n ⟨"string", d, some vs⟩ b.params.properties }) } := rfl

theorem applyOp_fields (b : ToolBuilder) (op : BuilderOp) (b' : ToolBuilder)
    (h : applyOp b op = some b') :
    b'.name.isSome = (b.name.isSome || op.isName)
    ∧ b'.description.isSome = (b.description.isSome || op.isDescription)
    ∧ b'.parameters.isSome = (b.parameters.isSome || op.isAdd) := by
  cases op with
  | set_name s =>
    simp only [applyOp, Option.some.injEq] at h
    subst h
    simp [ToolBuilder.set_name, BuilderOp.isName, BuilderOp.isDescription, BuilderOp.isAdd]
  | set_description s =>
    simp only [applyOp, Option.some.injEq] at h
    subst h
    simp [ToolBuilder.set_description, BuilderOp.isName, BuilderOp.isDescription,
      BuilderOp.isAdd]
  | add_parameter ty n d =>
    simp only [applyOp] at h
    obtain ⟨tag, -, rfl⟩ := (add_parameter_eq_some b ty n d b').mp h
    simp [BuilderOp.isName, BuilderOp.isDescription, BuilderOp.isAdd]
  | add_optional_parameter ty n d =>
    simp only [applyOp] at h
    obtain ⟨tag, -, rfl⟩ := (add_optional_parameter_eq_some b ty n d b').mp h
    simp [BuilderOp.isName, BuilderOp.isDescription, BuilderOp.isAdd]
  | add_enum_parameter n d vs =>
    simp only [applyOp, Option.some.injEq] at h
    subst h
    simp [add_enum_parameter_eq, BuilderOp.isName, BuilderOp.isDescription, BuilderOp.isAdd]
  | add_optional_enum_parameter n d vs =>
    simp only [applyOp, Option.some.injEq] at h
    subst h
    simp [add_optional_enum_parameter_eq, BuilderOp.isName, BuilderOp.isDescription,
      BuilderOp.isAdd]

theorem applyOps_fields (ops : List BuilderOp) : ∀ b b' : ToolBuilder,
    applyOps b ops = some b' →
    b'.name.isSome = (b.name.isSome || ops.any BuilderOp.isName)
    ∧ b'.description.isSome = (b.description.isSome || ops.any BuilderOp.isDescription)
    ∧ b'.parameters.isSome = (b.parameters.isSome || ops.any BuilderOp.isAdd) := by
  induction ops with
  | nil =>
    intro b b' h
    simp only [applyOps, Option.some.injEq] at h
    subst h
    simp
  | cons op rest ih =>
    intro b b' h
    simp only [applyOps] at h
    cases hop : applyOp b op with
    | none => rw [hop] at h; exact absurd h (by simp)
    | some b1 =>
      rw [hop] at h
      obtain ⟨h1, h2, h3⟩ := applyOp_fields b op b1 hop
      obtain ⟨g1, g2, g3⟩ := ih b1 b' h
      refine ⟨?_, ?_, ?_⟩ <;>
        simp [g1, g2, g3, h1, h2, h3, List.any_cons, Bool.or_assoc]

theorem requiredCovered_insert_push (ps : ToolParameters) (n : String) (p : ToolParameter)
    (h : ps.requiredCovered = true) :
    ({ ps with
       properties := insertKey n p ps.properties,
       required := ps.required ++ [n] } : ToolParameters).requiredCovered = true := by
  simp only [ToolParameters.requiredCovered, List.all_eq_true] at h ⊢
  intro m hm
  rcases List.mem_append.mp hm with hm | hm
  · have hmem := h m hm
    rw [lookupKey_insertKey]
    by_cases hnm : n = m
    · simp [hnm]
    · simpa [hnm] using hmem
  · simp only [List.mem_singleton] at hm
    subst hm
    simp [lookupKey_insertKey_self]

theorem requiredCovered_insert (ps : ToolParameters) (n : String) (p : ToolParameter)
    (h : ps.requiredCovered = true) :
    ({ ps with properties := insertKey n p ps.properties } : ToolParameters).requiredCovered
      = true := by
  simp only [ToolParameters.requiredCovered, List.all_eq_true] at h ⊢
  intro m hm
  have hmem := h m hm
  rw [lookupKey_insertKey]
  by_cases hnm : n = m
  · simp [hnm]
  · simpa [hnm] using hmem

theorem applyOp_preserves_inv (b : ToolBuilder) (op : BuilderOp) (b' : ToolBuilder)
    (h : applyOp b op = some b') (hb : b.inv) : b'.inv := by
  cases op with
  | set_name s =>
    simp only [applyOp, Option.some.injEq] at h
    subst h
    exact hb
  | set_description s =>
    simp only [applyOp, Option.some.injEq] at h
    subst h
    exact hb
  | add_parameter ty n d =>
    simp only [applyOp] at h
    obtain ⟨tag, -, rfl⟩ := (add_parameter_eq_some b ty n d b').mp h
    simpa [ToolBuilder.inv, ToolBuilder.params] using
      requiredCovered_insert_push b.params n ⟨tag, d, none⟩ hb
  | add_optional_parameter ty n d =>
    simp only [applyOp] at h
    obtain ⟨tag, -, rfl⟩ := (add_optional_parameter_eq_some b ty n d b').mp h
    simpa [ToolBuilder.inv, ToolBuilder.params] using
      requiredCovered_insert b.params n ⟨tag, d, none⟩ hb
  | add_enum_parameter n d vs =>
    simp only [applyOp, Option.some.injEq] at h
    subst h
    simpa [ToolBuilder.inv, ToolBuilder.params, add_enum_parameter_eq] using
      requiredCovered_insert_push b.params n ⟨"string", d, some vs⟩ hb
  | add_optional_enum_parameter n d vs =>
    simp only [applyOp, Option.some.injEq] at h
    subst h
    simpa [ToolBuilder.inv, ToolBuilder.params, add_optional_enum_parameter_eq] using
      requiredCovered_insert b.params n ⟨"string", d, some vs⟩ hb

theorem applyOps_preserves_inv (ops : List BuilderOp) : ∀ b b' : ToolBuilder,
    applyOps b ops = some b' → b.inv → b'.inv := by
  induction ops with
  | nil =>
    intro b b' h hb
    simp only [applyOps, Option.some.injEq] at h
    subst h
    exact hb
  | cons op rest ih =>
    intro b b' h hb
    simp only [applyOps] at h
    cases hop : applyOp b op with
    | none => rw [hop] at h; exact absurd h (by simp)
    | some b1 =>
      rw [hop] at h
      exact ih b1 b' h (applyOp_preserves_inv b op b1 hop hb)

/-! Claim theorems. -/

/-- C3: `build()` errors with `NameNotSet` when no `name` call occurred in
the chain, with `DescriptionNotSet` when a `name` call but no `description`
call occurred, and succeeds with an `"object"`-kind, empty-properties,
empty-required parameter schema when both occurred and no parameter-adding
operation was called. -/
theorem C3_build_outcomes (ops : List BuilderOp) (b : ToolBuilder)
    (h : applyOps ToolBuilder.new ops = some b) :
    (ops.any BuilderOp.isName = false → b.build = .error .NameNotSet)
    ∧ (ops.any BuilderOp.isName = true → ops.any BuilderOp.isDescription = false →
        b.build = .error .DescriptionNotSet)
    ∧ (ops.any BuilderOp.isName = true → ops.any BuilderOp.isDescription = true →
        ops.any BuilderOp.isAdd = false →
        ∃ tool, b.build = .ok tool
          ∧ tool.function.parameters.parameter_type = "object"
          ∧ tool.function.parameters.properties = []
          ∧ tool.function.parameters.required = []) := by
  obtain ⟨h1, h2, h3⟩ := applyOps_fields ops ToolBuilder.new b h
  simp only [ToolBuilder.new, Option.isSome_none, Bool.false_or] at h1 h2 h3
  refine ⟨?_, ?_, ?_⟩
  · intro hn
    have : b.name = none := by
      rw [← Option.not_isSome_iff_eq_none, h1, hn]
      simp
    simp [ToolBuilder.build, this]
  · intro hn hd
    obtain ⟨nm, hnm⟩ := Option.isSome_iff_exists.mp (h1.trans hn)
    have : b.description = none := by
      rw [← Option.not_isSome_iff_eq_none, h2, hd]
      simp
    simp [ToolBuilder.build, hnm, this]
  · intro hn hd ha
    obtain ⟨nm, hnm⟩ := Option.isSome_iff_exists.mp (h1.trans hn)
    obtain ⟨ds, hds⟩ := Option.isSome_iff_exists.mp (h2.trans hd)
    have hp : b.parameters = none := by
      rw [← Option.not_isSome_iff_eq_none, h3, ha]
      simp
    refine ⟨⟨.function, ⟨nm, ds, ToolParameters.mkDefault⟩⟩, ?_, rfl, rfl, rfl⟩
    simp [ToolBuilder.build, hnm, hds, hp]

/-- Witness for C3: the empty chain fails with `NameNotSet`. -/
theorem C3_build_outcomes_witness :
    ToolBuilder.new.build = .error .NameNotSet :=
  (C3_build_outcomes [] ToolBuilder.new rfl).1 rfl

/-- C9: every name in the accumulated `required` list is a key of the
accumulated `properties` map; every single builder operation preserves this
invariant, and every chain from `ToolBuilder::new` establishes it. -/
theorem C9_required_covered :
    (∀ (b : ToolBuilder) (op : BuilderOp) (b' : ToolBuilder),
        applyOp b op = some b' → b.inv → b'.inv)
    ∧ (∀ (ops : List BuilderOp) (b : ToolBuilder),
        applyOps ToolBuilder.new ops = some b → b.inv) :=
  ⟨applyOp_preserves_inv,
   fun ops b h => applyOps_preserves_inv ops ToolBuilder.new b h rfl⟩

/-- Witness for C9 at a concrete one-call chain. -/
theorem C9_required_covered_witness :
    (ToolBuilder.mk none none (some (ToolParameters.mk "object"
      [("x", ToolParameter.mk "number" "d" none)] ["x"]))).inv :=
  C9_required_covered.2 [.add_parameter .i32 "x" "d"] _ rfl

theorem requiredName_cases (op : BuilderOp) (n : String) (h : op.requiredName = some n) :
    (∃ ty d, op = .add_parameter ty n d) ∨ ∃ d vs, op = .add_enum_parameter n d vs := by
  cases op with
  | set_name s => simp [BuilderOp.requiredName] at h
  | set_description s => simp [BuilderOp.requiredName] at h
  | add_parameter ty nm d =>
    simp only [BuilderOp.requiredName, Option.some.injEq] at h
    subst h
    exact Or.inl ⟨ty, d, rfl⟩
  | add_optional_parameter ty nm d => simp [BuilderOp.requiredName] at h
  | add_enum_parameter nm d vs =>
    simp only [BuilderOp.requiredName, Option.some.injEq] at h
    subst h
    exact Or.inr ⟨d, vs, rfl⟩
  | add_optional_enum_parameter nm d vs => simp [BuilderOp.requiredName] at h

theorem applyOp_required_add (b : ToolBuilder) (op : BuilderOp) (n : String)
    (b' : ToolBuilder) (hn : op.requiredName = some n) (h : applyOp b op = some b') :
    ∃ p, op.insertedParam = some p
      ∧ b'.params.properties = insertKey n p b.params.properties
      ∧ b'.params.required = b.params.required ++ [n] := by
  rcases requiredName_cases op n hn with ⟨ty, d, rfl⟩ | ⟨d, vs, rfl⟩
  · simp only [applyOp] at h
    obtain ⟨tag, htag, rfl⟩ := (add_parameter_eq_some b ty n d b').mp h
    exact ⟨⟨tag, d, none⟩, by simp [BuilderOp.insertedParam, htag],
      by simp [ToolBuilder.params], by simp [ToolBuilder.params]⟩
  · simp only [applyOp, Option.some.injEq] at h
    subst h
    exact ⟨⟨"string", d, some vs⟩, rfl,
      by simp [ToolBuilder.params, add_enum_parameter_eq],
      by simp [ToolBuilder.params, add_enum_parameter_eq]⟩

/-- C6: when two required-adding operations are applied in sequence with
the same parameter name (starting from required not yet naming it), the
name ends up twice in `required`, while `properties` holds only the second
call's parameter. -/
theorem C6_duplicate_required (b b1 b2 : ToolBuilder) (op1 op2 : BuilderOp) (n : String)
    (h1n : op1.requiredName = some n) (h2n : op2.requiredName = some n)
    (h1 : applyOp b op1 = some b1) (h2 : applyOp b1 op2 = some b2)
    (hcount : b.params.required.count n = 0) :
    b2.params.required.count n = 2
    ∧ lookupKey n b2.params.properties = op2.insertedParam := by
  obtain ⟨p1, hp1, hprops1, hreq1⟩ := applyOp_required_add b op1 n b1 h1n h1
  obtain ⟨p2, hp2, hprops2, hreq2⟩ := applyOp_required_add b1 op2 n b2 h2n h2
  constructor
  · rw [hreq2, hreq1, List.count_append, List.count_append]
    simp [hcount]
  · rw [hprops2, hp2, lookupKey_insertKey_self]

/-- Witness for C6: a typed required add and then a required enum add for
the name `q` on a fresh builder. -/
theorem C6_duplicate_required_witness :
    (ToolBuilder.mk none none (some (ToolParameters.mk "object"
      [("q", ToolParameter.mk "string" "d2" (some ["x", "y"]))]
      ["q", "q"]))).params.required.count "q" = 2
    ∧ lookupKey "q" (ToolBuilder.mk none none (some (ToolParameters.mk "object"
        [("q", ToolParameter.mk "string" "d2" (some ["x", "y"]))]
        ["q", "q"]))).params.properties
      = (BuilderOp.add_enum_parameter "q" "d2" ["x", "y"]).insertedParam :=
  C6_duplicate_required ToolBuilder.new
    (ToolBuilder.mk none none (some (ToolParameters.mk "object"
      [("q", ToolParameter.mk "number" "d1" none)] ["q"])))
    (ToolBuilder.mk none none (some (ToolParameters.mk "object"
      [("q", ToolParameter.mk "string" "d2" (some ["x", "y"]))] ["q", "q"])))
    (.add_parameter .i32 "q" "d1") (.add_enum_parameter "q" "d2" ["x", "y"]) "q"
    rfl rfl rfl rfl rfl

/-- C7: a required typed parameter `x` of a number type followed by an
optional enum parameter `y` yields `x` with tag `"number"` and no enum,
`y` with tag `"string"` and the given enum values in order, and
`required = ["x"]`. -/
theorem C7_number_then_optional_enum (t : RustTy) (dx dy : String) (vs : List String)
    (ht : t.stringTag = some "number") :
    ∃ b1, ToolBuilder.new.add_parameter t "x" dx = some b1
      ∧ lookupKey "x" (b1.add_optional_enum_parameter "y" dy vs).params.properties
          = some (ToolParameter.mk "number" dx none)
      ∧ lookupKey "y" (b1.add_optional_enum_parameter "y" dy vs).params.properties
          = some (ToolParameter.mk "string" dy (some vs))
      ∧ (b1.add_optional_enum_parameter "y" dy vs).params.required = ["x"] := by
  have h1 : ToolBuilder.new.add_parameter t "x" dx = some (ToolBuilder.mk none none
      (some (ToolParameters.mk "object" [("x", ToolParameter.mk "number" dx none)] ["x"]))) := by
    rw [add_parameter_eq_some]
    exact ⟨"number", ht, rfl⟩
  refine ⟨_, h1, ?_, ?_, ?_⟩
  · rw [add_optional_enum_parameter_eq]
    simp only [ToolBuilder.params, Option.getD_some]
    rw [lookupKey_insertKey]
    simp [lookupKey]
  · rw [add_optional_enum_parameter_eq]
    simp only [ToolBuilder.params, Option.getD_some]
    rw [lookupKey_insertKey_self]
  · rw [add_optional_enum_parameter_eq]
    simp [ToolBuilder.params]

/-- Witness for C7 at `i32`, concrete descriptions and the enum list
`["a", "b"]`. -/
theorem C7_number_then_optional_enum_witness :
    ∃ b1, ToolBuilder.new.add_parameter .i32 "x" "first" = some b1
      ∧ lookupKey "x" (b1.add_optional_enum_parameter "y" "second" ["a", "b"]).params.properties
          = some (ToolParameter.mk "number" "first" none)
      ∧ lookupKey "y" (b1.add_optional_enum_parameter "y" "second" ["a", "b"]).params.properties
          = some (ToolParameter.mk "string" "second" (some ["a", "b"]))
      ∧ (b1.add_optional_enum_parameter "y" "second" ["a", "b"]).params.required = ["x"] :=
  C7_number_then_optional_enum .i32 "first" "second" ["a", "b"] rfl

/-- C4 counterexample: the code's `HashMap` descriptor carries a space
after the comma (`format!("Map<{}, {}>")`, asserted by the crate's own
test as `"Map<string, string>"`), so the claimed tag `"Map<{k},{v}>"`
(no space) is not what `jsonify` returns. -/
theorem C4_map_counterexample :
    (RustTy.hashMap .string .string).jsonify = some (.str "Map<string, string>")
    ∧ "Map<string, string>" ≠ "Map<string,string>" :=
  ⟨rfl, by decide⟩

/-- C4 as amended: primitive tags are `"string"`, `"number"`, `"boolean"`
for every width/signedness variant; `Vec<T>` of a type with tag `t`
yields `"t[]"`; `HashMap<K, V>` of types with tags `k`, `v` yields
`"Map<k, v>"` -- with a space after the comma. -/
theorem C4_descriptor_tags :
    ((RustTy.refStr).jsonify = some (.str "string")
      ∧ (RustTy.string).jsonify = some (.str "string")
      ∧ (RustTy.char).jsonify = some (.str "string"))
    ∧ ((RustTy.i8).jsonify = some (.str "number")
      ∧ (RustTy.i16).jsonify = some (.str "number")
      ∧ (RustTy.i32).jsonify = some (.str "number")
      ∧ (RustTy.i64).jsonify = some (.str "number")
      ∧ (RustTy.i128).jsonify = some (.str "number")
      ∧ (RustTy.u8).jsonify = some (.str "number")
      ∧ (RustTy.u16).jsonify = some (.str "number")
      ∧ (RustTy.u32).jsonify = some (.str "number")
      ∧ (RustTy.u64).jsonify = some (.str "number")
      ∧ (RustTy.u128).jsonify = some (.str "number")
      ∧ (RustTy.f32).jsonify = some (.str "number")
      ∧ (RustTy.f64).jsonify = some (.str "number"))
    ∧ (RustTy.bool).jsonify = some (.str "boolean")
    ∧ (∀ t s, RustTy.jsonify t = some (.str s) →
        (RustTy.vec t).jsonify = some (.str (s ++ "[]")))
    ∧ (∀ k v ks vs, RustTy.jsonify k = some (.str ks) → RustTy.jsonify v = some (.str vs) →
        (RustTy.hashMap k v).jsonify = some (.str ("Map<" ++ ks ++ ", " ++ vs ++ ">"))) := by
  refine ⟨⟨rfl, rfl, rfl⟩,
    ⟨rfl, rfl, rfl, rfl, rfl, rfl, rfl, rfl, rfl, rfl, rfl, rfl⟩, rfl, ?_, ?_⟩
  · intro t s h
    simp [RustTy.jsonify, h, Json.as_str]
  · intro k v ks vs hk hv
    simp [RustTy.jsonify, hk, hv, Json.as_str]

/-- Witness for the amended C4 at `Vec<i32>` and `HashMap<&str, u8>`. -/
theorem C4_descriptor_tags_witness :
    (RustTy.vec .i32).jsonify = some (.str "number[]")
    ∧ (RustTy.hashMap .refStr .u8).jsonify = some (.str "Map<string, number>") :=
  ⟨C4_descriptor_tags.2.2.2.1 .i32 "number" rfl,
   C4_descriptor_tags.2.2.2.2 .refStr .u8 "string" "number" rfl rfl⟩

/-- C10: the inner-descriptor unwraps.  A composite record type's
descriptor is never a plain string tag; `Vec<T>::jsonify` is panic-free
exactly when `T`'s descriptor is a string tag; `HashMap<K, V>::jsonify`
is panic-free exactly when both `K`'s and `V`'s are;
`ToolBuilder::add_parameter::<T>` and `add_optional_parameter::<T>` are
panic-free exactly when `T`'s is. -/
theorem C10_unwrap_panics :
    (∀ fs : FieldList, RustTy.stringTag (.object fs) = none)
    ∧ (∀ t : RustTy, ((RustTy.vec t).jsonify).isSome = (t.stringTag).isSome)
    ∧ (∀ k v : RustTy,
        ((RustTy.hashMap k v).jsonify).isSome = ((k.stringTag).isSome && (v.stringTag).isSome))
    ∧ (∀ (b : ToolBuilder) (t : RustTy) (n d : String),
        (b.add_parameter t n d).isSome = (t.stringTag).isSome)
    ∧ (∀ (b : ToolBuilder) (t : RustTy) (n d : String),
        (b.add_optional_parameter t n d).isSome = (t.stringTag).isSome) := by
  refine ⟨?_, ?_, ?_, ?_, ?_⟩
  · intro fs
    cases h : FieldList.jsonifyFields fs <;>
      simp [RustTy.stringTag, RustTy.jsonify, h, Json.as_str]
  · intro t
    cases h : t.jsonify with
    | none => simp [RustTy.jsonify, RustTy.stringTag, h]
    | some j => cases j <;> simp [RustTy.jsonify, RustTy.stringTag, Json.as_str, h]
  · intro k v
    cases hk : k.jsonify with
    | none => simp [RustTy.jsonify, RustTy.stringTag, hk]
    | some jk =>
      cases hv : v.jsonify with
      | none => cases jk <;> simp [RustTy.jsonify, RustTy.stringTag, Json.as_str, hk, hv]
      | some jv => cases jk <;> cases jv <;>
          simp [RustTy.jsonify, RustTy.stringTag, Json.as_str, hk, hv]
  · intro b t n d
    cases h : t.jsonify with
    | none => simp [ToolBuilder.add_parameter, RustTy.stringTag, h]
    | some j => cases j <;>
        simp [ToolBuilder.add_parameter, RustTy.stringTag, Json.as_str, h]
  · intro b t n d
    cases h : t.jsonify with
    | none => simp [ToolBuilder.add_optional_parameter, RustTy.stringTag, h]
    | some j => cases j <;>
        simp [ToolBuilder.add_optional_parameter, RustTy.stringTag, Json.as_str, h]

theorem notFound_content : (Json.str "Tool not found").to_string = "\"Tool not found\"" := by
  decide

theorem call_tool_found (dec : String → Option Json) (ts : Tools) (tc : ToolCall)
    (sch : Json) (tool : ToTool) (j : Json)
    (hl : lookupKey tc.function.name ts.entries = some (sch, tool))
    (hd : dec tc.function.arguments = some j) :
    Tools.call_tool dec ts tc = some (tool.call_tool tc.id j) := by
  simp [Tools.call_tool, hl, hd]

theorem callToolsList_absorbs_none (dec : String → Option Json) (ts : Tools)
    (tc : ToolCall) (h : Tools.call_tool dec ts tc = none) (post : List ToolCall) :
    ∀ pre, Tools.callToolsList dec ts (pre ++ tc :: post) = none := by
  intro pre
  induction pre with
  | nil => simp [Tools.callToolsList, h]
  | cons p rest ih =>
    simp only [List.cons_append, Tools.callToolsList]
    cases hp : Tools.call_tool dec ts p <;> simp [hp, ih]

/-- C1 counterexample: the not-found content is
`json!("Tool not found").to_string()`, the JSON rendering of the string --
which carries literal quote characters, so it differs from the claimed
plain `"Tool not found"`. -/
theorem C1_not_found_counterexample :
    Tools.call_tool decFail Tools.empty cexCall
      = some (ToolCallResult.mk "call-1" "\"Tool not found\"")
    ∧ ("\"Tool not found\"" : String) ≠ "Tool not found" := by
  constructor
  · show some (ToolCallResult.mk "call-1" ((Json.str "Tool not found").to_string)) = _
    rw [notFound_content]
  · decide

/-- C1 as amended: a request naming an unregistered tool yields a result
with the request's id and content `"\"Tool not found\""` (the
JSON-serialized string, quotes included), and the rest of the batch is
still processed, contributing its own results after it. -/
theorem C1_not_found_amended (dec : String → Option Json) (ts : Tools) (tc : ToolCall)
    (h : lookupKey tc.function.name ts.entries = none) :
    Tools.call_tool dec ts tc = some (ToolCallResult.mk tc.id "\"Tool not found\"")
    ∧ ∀ rest rs, Tools.call_tools dec ts rest = some rs →
        Tools.call_tools dec ts (tc :: rest)
          = some (ToolsResults.mk
              (ToolCallResult.mk tc.id "\"Tool not found\"" :: rs.results)) := by
  have hc : Tools.call_tool dec ts tc
      = some (ToolCallResult.mk tc.id "\"Tool not found\"") := by
    simp [Tools.call_tool, h, notFound_content]
  refine ⟨hc, ?_⟩
  intro rest rs hrest
  simp only [Tools.call_tools] at hrest ⊢
  cases hl : Tools.callToolsList dec ts rest with
  | none => rw [hl] at hrest; simp at hrest
  | some l =>
    rw [hl] at hrest
    simp only [Option.map_some', Option.some.injEq] at hrest
    subst hrest
    simp [Tools.callToolsList, hc, hl]

/-- Witness for the amended C1 on the empty registry. -/
theorem C1_not_found_amended_witness :
    Tools.call_tool decFail Tools.empty cexCall2
      = some (ToolCallResult.mk "id-2" "\"Tool not found\"")
    ∧ Tools.call_tools decFail Tools.empty [cexCall2]
      = some (ToolsResults.mk [ToolCallResult.mk "id-2" "\"Tool not found\""]) := by
  have h := C1_not_found_amended decFail Tools.empty cexCall2 rfl
  exact ⟨h.1, h.2 [] (ToolsResults.mk []) rfl⟩

/-- C8: when the call's name is registered but its arguments fail to
decode, the dispatch panics (`from_str(..).unwrap()`): no result -- error
envelope or otherwise -- is produced for that call, and the whole batch
containing it aborts. -/
theorem C8_decode_failure_fatal (dec : String → Option Json) (ts : Tools) (tc : ToolCall)
    (sch : Json) (tool : ToTool)
    (hfound : lookupKey tc.function.name ts.entries = some (sch, tool))
    (hdec : dec tc.function.arguments = none) :
    Tools.call_tool dec ts tc = none
    ∧ ∀ pre post, Tools.call_tools dec ts (pre ++ tc :: post) = none := by
  have hc : Tools.call_tool dec ts tc = none := by
    simp [Tools.call_tool, hfound, hdec]
  exact ⟨hc, fun pre post => by
    simp [Tools.call_tools, callToolsList_absorbs_none dec ts tc hc post pre]⟩

/-- Witness for C8: a registered `echo` tool with an undecodable
argument string. -/
theorem C8_decode_failure_fatal_witness :
    Tools.call_tool decFail regEcho callEchoBad = none
    ∧ Tools.call_tools decFail regEcho [callEchoBad] = none := by
  have h := C8_decode_failure_fatal decFail regEcho callEchoBad
    (echoTool.to_tool.toJson) echoTool rfl rfl
  exact ⟨h.1, h.2 [] []⟩

/-- C2: a batch whose names are all registered and whose arguments all
decode yields exactly one result per request, in input order, the i-th
being the i-th request's handler applied to its id and decoded
arguments. -/
theorem C2_ordered_dispatch (dec : String → Option Json) (ts : Tools)
    (tcs : List ToolCall)
    (h : ∀ tc ∈ tcs, ∃ sch tool j,
        lookupKey tc.function.name ts.entries = some (sch, tool)
        ∧ dec tc.function.arguments = some j) :
    ∃ rs : List ToolCallResult,
      Tools.call_tools dec ts tcs = some (ToolsResults.mk rs)
      ∧ rs.length = tcs.length
      ∧ ∀ i : Fin tcs.length, ∃ sch tool j,
          lookupKey (tcs.get i).function.name ts.entries = some (sch, tool)
          ∧ dec (tcs.get i).function.arguments = some j
          ∧ rs[i.val]? = some (tool.call_tool (tcs.get i).id j) := by
  induction tcs with
  | nil => exact ⟨[], rfl, rfl, fun i => i.elim0⟩
  | cons tc rest ih =>
    obtain ⟨sch, tool, j, hl, hd⟩ := h tc (List.mem_cons_self tc rest)
    obtain ⟨rs', h1, h2, h3⟩ := ih (fun tc' htc' => h tc' (List.mem_cons_of_mem tc htc'))
    have hlist : Tools.callToolsList dec ts rest = some rs' := by
      simp only [Tools.call_tools] at h1
      cases hx : Tools.callToolsList dec ts rest with
      | none => rw [hx] at h1; simp at h1
      | some l =>
        rw [hx] at h1
        simp only [Option.map_some', Option.some.injEq, ToolsResults.mk.injEq] at h1
        rw [h1]
    refine ⟨tool.call_tool tc.id j :: rs', ?_, ?_, ?_⟩
    · simp [Tools.call_tools, Tools.callToolsList,
        call_tool_found dec ts tc sch tool j hl hd, hlist]
    · simp [h2]
    · intro i
      cases i using Fin.cases with
      | zero => exact ⟨sch, tool, j, hl, hd, by simp⟩
      | succ k =>
        obtain ⟨sch', tool', j', hl', hd', hr⟩ := h3 k
        exact ⟨sch', tool', j', hl', hd', by simpa using hr⟩

/-- Witness for C2: a two-request batch over a two-tool registry with a
decoder that accepts every payload. -/
theorem C2_ordered_dispatch_witness :
    ∃ rs : List ToolCallResult,
      Tools.call_tools decNull regTwo [callE, callT] = some (ToolsResults.mk rs)
      ∧ rs.length = [callE, callT].length
      ∧ ∀ i : Fin [callE, callT].length, ∃ sch tool j,
          lookupKey ([callE, callT].get i).function.name regTwo.entries = some (sch, tool)
          ∧ decNull ([callE, callT].get i).function.arguments = some j
          ∧ rs[i.val]? = some (tool.call_tool ([callE, callT].get i).id j) :=
  C2_ordered_dispatch decNull regTwo [callE, callT] (by
    intro tc htc
    simp only [List.mem_cons, List.not_mem_nil, or_false] at htc
    rcases htc with rfl | rfl
    · exact ⟨echoTool.to_tool.toJson, echoTool, Json.null, rfl, rfl⟩
    · exact ⟨twiceTool.to_tool.toJson, twiceTool, Json.null, rfl, rfl⟩)

theorem schemaName_toJson (t : Tool) : schemaName t.toJson = some t.function.name := rfl

theorem filter_map_schema_none (n : String) (l : List (String × (Json × ToTool)))
    (hinv : ∀ p ∈ l, schemaName p.2.1 = some p.1)
    (hne : ∀ p ∈ l, ¬(p.1 = n)) :
    (l.map (fun p => p.2.1)).filter (fun j => decide (schemaName j = some n)) = [] := by
  induction l with
  | nil => rfl
  | cons p rest ih =>
    have hp := hinv p (List.mem_cons_self p rest)
    have hq := hne p (List.mem_cons_self p rest)
    simp only [List.map_cons, List.filter_cons]
    have hpred : decide (schemaName p.2.1 = some n) = false := by
      simp [hp, hq]
    rw [hpred]
    exact ih (fun q hq' => hinv q (List.mem_cons_of_mem p hq'))
      (fun q hq' => hne q (List.mem_cons_of_mem p hq'))

/-- C5: registering two tools with the same definition name leaves one
entry under that name, holding the second tool's precomputed schema and
handler, and the registry's serialization carries exactly one schema for
that name -- the second tool's. -/
theorem C5_register_overwrite (ts0 : Tools) (t1 t2 : ToTool) (n : String)
    (h1 : (t1.to_tool).function.name = n) (h2 : (t2.to_tool).function.name = n)
    (hinv : ∀ p ∈ ts0.entries, schemaName p.2.1 = some p.1) :
    countKey n ((ts0.add_tool t1).add_tool t2).entries = 1
    ∧ lookupKey n ((ts0.add_tool t1).add_tool t2).entries
        = some ((t2.to_tool).toJson, t2)
    ∧ ((ts0.add_tool t1).add_tool t2).serialize.filter
        (fun j => decide (schemaName j = some n))
      = [(t2.to_tool).toJson] := by
  have he : ((ts0.add_tool t1).add_tool t2).entries
      = insertKey n ((t2.to_tool).toJson, t2)
          (insertKey n ((t1.to_tool).toJson, t1) ts0.entries) := by
    simp [Tools.add_tool, h1, h2]
  refine ⟨?_, ?_, ?_⟩
  · rw [he, countKey_insertKey_self]
  · rw [he, lookupKey_insertKey_self]
  · rw [Tools.serialize, he]
    simp only [insertKey, List.filter_cons, List.map_cons, decide_not, decide_True,
      Bool.not_true]
    have hhead : decide (schemaName (t2.to_tool).toJson = some n) = true := by
      simp [schemaName_toJson, h2]
    rw [hhead]
    have htail : ((((ts0.entries.filter (fun p => !decide (p.1 = n))).filter
          (fun p => !decide (p.1 = n))).map (fun p => p.2.1)).filter
        (fun j => decide (schemaName j = some n))) = [] := by
      refine filter_map_schema_none n _ ?_ ?_
      · intro q hq
        exact hinv q (List.mem_of_mem_filter (List.mem_of_mem_filter hq))
      · intro q hq
        have := (List.mem_filter.mp hq).2
        simpa using this
    simpa using htail

/-- Witness for C5: two concrete tools registered under the name `dup` on
the empty registry. -/
theorem C5_register_overwrite_witness :
    countKey "dup" ((Tools.empty.add_tool dupToolA).add_tool dupToolB).entries = 1
    ∧ lookupKey "dup" ((Tools.empty.add_tool dupToolA).add_tool dupToolB).entries
        = some ((dupToolB.to_tool).toJson, dupToolB)
    ∧ ((Tools.empty.add_tool dupToolA).add_tool dupToolB).serialize.filter
        (fun j => decide (schemaName j = some "dup"))
      = [(dupToolB.to_tool).toJson] :=
  C5_register_overwrite Tools.empty dupToolA dupToolB "dup" rfl rfl
    (by intro p hp; simp [Tools.empty] at hp)

end AiToolsOx
